import Mathlib

/-!
Shallow embedding of the e-commerce order-management system
(`src/services/order_service.py` and the services it orchestrates) for
checking the specification claims.

Modelling conventions:
* Python floats are modelled as exact rationals (`ℚ`); Python ints as `Int`.
* Python dictionaries are association lists `List (κ × α)`; `setEntry`
  keeps the position of an existing key and appends a new one, matching
  `d[k] = v` insertion-order semantics.
* Methods that mutate service state are functions threading an explicit
  `SysState`.  A Python exception is modelled by an explicit `raised`
  result carrying the message; the state at the moment of the raise is
  returned alongside, since mutations made before the raise persist.
* `datetime.datetime.now()` is the `now : Int` field of the state
  (timestamps are integers, `now > valid_until` is `valid_until < now`).
-/

namespace ECom

/-- Association-list lookup, first match wins (Python `dict.get`). -/
def getEntry {κ α : Type} [DecidableEq κ] (k : κ) : List (κ × α) → Option α
| [] => none
| (k', v) :: rest => if k = k' then some v else getEntry k rest

/-- Association-list store (`d[k] = v`): replace in place or append. -/
def setEntry {κ α : Type} [DecidableEq κ] (k : κ) (v : α) : List (κ × α) → List (κ × α)
| [] => [(k, v)]
| (k', v') :: rest => if k = k' then (k, v) :: rest else (k', v') :: setEntry k v rest

/-- Python `'needle' in haystack` substring test. -/
def strContains (haystack needle : String) : Bool :=
  (List.range (haystack.toList.length + 1)).any
    (fun i => needle.toList.isPrefixOf (haystack.toList.drop i))

/-- Python `int(x)` on a float: truncation toward zero. -/
def pyInt (q : ℚ) : Int :=
  if 0 ≤ q then ⌊q⌋ else -(⌊-q⌋)

/-- `domain/enums/membership_tier.py` -/
inductive MembershipTier where
  | standard | bronze | silver | gold | suspended
deriving DecidableEq

/-- `domain/enums/order_status.py` -/
inductive OrderStatus where
  | pending | shipped | delivered | cancelled | in_transit
deriving DecidableEq

/-- `domain/enums/payment_method.py` -/
inductive PaymentMethod where
  | credit_card | paypal
deriving DecidableEq

/-- `domain/enums/payment_status.py` (the constructors the core flow uses) -/
inductive PaymentStatus where
  | pending | completed | failed | refunded | cancelled
deriving DecidableEq

/-- `domain/enums/shipping_method.py` -/
inductive ShippingMethod where
  | standard | express | overnight
deriving DecidableEq

/-- `domain/models/product.py` — `Product` fields used by the core flow.
`category` is the plain string of the Python model (`ProductCategory.ALL`
is the string `"all"`).  The constructor validation (negative price,
quantity or weight raises `ValueError`) is modelled at the call sites
that construct fresh `Product` objects.  The `discount_eligible` flag is
never read by the order pipeline and is omitted. -/
structure Product where
  product_id : Int
  name : String
  price : ℚ
  quantity_available : Int
  category : String
  weight : ℚ
  supplier_id : Int
deriving DecidableEq

/-- `domain/models/customer.py` — `Customer` fields used by the core flow
(`email`, `phone`, `address` are carried as the underlying strings of the
`Email`/`PhoneNumber`/`Address` value objects). -/
structure Customer where
  customer_id : Int
  name : String
  email : String
  membership_tier : MembershipTier
  phone : String
  address : String
  loyalty_points : Int
  order_history : List Int
deriving DecidableEq

/-- `domain/models/promotion.py` — `valid_until` is an integer timestamp. -/
structure Promotion where
  promo_id : Int
  code : String
  discount_percent : ℚ
  min_purchase : ℚ
  valid_until : Int
  category : String
  used_count : Int
deriving DecidableEq

/-- `domain/models/order_item.py` — `OrderItem`; construction-time
validation (quantity ≤ 0 or negative unit price raises) is modelled at
the construction site inside `create_order`. -/
structure OrderItem where
  product_id : Int
  quantity : Int
  unit_price : ℚ
  discount_applied : ℚ
deriving DecidableEq

/-- `domain/models/order.py` — `Order` (without `created_at`, which the
core flow only stores and never reads). -/
structure Order where
  order_id : Int
  customer_id : Int
  items : List OrderItem
  status : OrderStatus
  total_price : ℚ
  shipping_cost : ℚ
  tracking_number : Option String
  payment_method : Option PaymentMethod
deriving DecidableEq

/-- `domain/models/payment_transaction.py` — the fields recorded by
`PaymentService.process_payment`. -/
structure PaymentTransaction where
  order_id : Int
  amount : ℚ
  payment_method : PaymentMethod
  status : PaymentStatus
deriving DecidableEq

/-- The `payment_info` dictionary passed to `create_order`: keys
`type` (already converted to the enum), `valid`, `card_number`,
`email` (empty string models a missing/falsy entry) and `amount`
(0 models a missing entry, as `payment_info.get("amount", 0)`). -/
structure PaymentInfo where
  ptype : PaymentMethod
  valid : Bool
  card_number : String
  email : String
  amount : ℚ
deriving DecidableEq

/-- One entry of `InventoryService.__inventory_logs`. -/
structure InventoryLogEntry where
  product_id : Int
  quantity_change : Int
  reason : String
deriving DecidableEq

/-- One entry of `NotificationService.__notification_log` (the fields the
claims observe). -/
structure NotificationEntry where
  customer_id : Int
  order_id : Int
  kind : String
deriving DecidableEq

/-- `domain/value_objects/pricing_result.py` — plain data; the
construction-time validation (any negative component raises) is modelled
where `PricingService.apply_all_discounts` is consumed by
`OrderService.create_order`. -/
structure PricingResult where
  original_subtotal : ℚ
  loyalty_points_used : Int
  subtotal_after_loyalty : ℚ
  total_weight : ℚ
deriving DecidableEq

/-- The combined state of all repositories and stateful services touched
by the order pipeline.  `supplier_reorders` records each
`SupplierService.notify_supplier_reorder(product_id, supplier_id)` call. -/
structure SysState where
  now : Int
  customers : List (Int × Customer)
  products : List (Int × Product)
  orders : List (Int × Order)
  next_order_id : Int
  promotions : List (String × Promotion)
  payment_history : List PaymentTransaction
  inventory_logs : List InventoryLogEntry
  notification_log : List NotificationEntry
  supplier_reorders : List (Int × Int)
deriving DecidableEq

/-- `services/pricing/strategies/membership_discount.py`:
rate by tier (GOLD 15%, SILVER 7%, BRONZE 3%, otherwise 0), returns
`subtotal * discount_rate`. -/
def MembershipDiscountStrategy.calculate_discount
    (tier : MembershipTier) (subtotal : ℚ) : ℚ :=
  let discount_rate : ℚ :=
    match tier with
    | .gold => 0.15
    | .silver => 0.07
    | .bronze => 0.03
    | .standard => 0
    | .suspended => 0
  subtotal * discount_rate

/-- `services/pricing/strategies/bulk_discount.py`:
rate by total item count, returned as
`current_subtotal - (current_subtotal * (1 - rate))`. -/
def BulkDiscountStrategyImpl.calculate_discount
    (total_items : Int) (current_subtotal : ℚ) : ℚ :=
  let rate : ℚ :=
    if 10 ≤ total_items then 0.05
    else if 5 ≤ total_items then 0.02
    else 0
  current_subtotal - (current_subtotal * (1 - rate))

/-- `services/pricing/strategies/loyalty_discount.py`:
fewer than 100 points gives 0, otherwise
`min(current_subtotal * 0.1, loyalty_points * 0.01)`. -/
def LoyaltyDiscountStrategyImpl.calculate_discount
    (loyalty_points : Int) (current_subtotal : ℚ) : ℚ :=
  if loyalty_points < 100 then 0
  else min (current_subtotal * 0.1) ((loyalty_points : ℚ) * 0.01)

/-- `services/pricing/strategies/loyalty_discount.py`:
`calculate_points_used` is `int(discount_amount * 100)`. -/
def LoyaltyDiscountStrategyImpl.calculate_points_used (discount_amount : ℚ) : Int :=
  pyInt (discount_amount * 100)

/-- The applicability loop of
`services/pricing/strategies/promotional_discount.py`: some line item has
a product whose category matches the promotion category, `"all"`
(`ProductCategory.ALL`) matching everything. -/
def promoApplicable (promotion : Promotion) (order_items : List OrderItem)
    (products : List (Int × Product)) : Bool :=
  order_items.any (fun item =>
    match getEntry item.product_id products with
    | some product =>
        decide (promotion.category = "all") || decide (product.category = promotion.category)
    | none => false)

/-- `services/pricing/strategies/promotional_discount.py`:
0 when absent, expired (`now > valid_until`), the original subtotal is
below `min_purchase`, or no line item matches the category; otherwise
`current_subtotal - (current_subtotal * (1 - discount_percent / 100))`. -/
def PromotionalDiscountStrategyImpl.calculate_discount
    (now : Int) (promotion : Option Promotion)
    (original_subtotal current_subtotal : ℚ)
    (order_items : List OrderItem) (products : List (Int × Product)) : ℚ :=
  match promotion with
  | none => 0
  | some promo =>
    if promo.valid_until < now then 0
    else if original_subtotal < promo.min_purchase then 0
    else if promoApplicable promo order_items products then
      current_subtotal - current_subtotal * (1 - promo.discount_percent / 100)
    else 0

/-- `PricingService.calculate_subtotal`: one pass accumulating
`(subtotal, total_weight)`; items whose product is missing are skipped. -/
def PricingService.calculate_subtotal (order_items : List OrderItem)
    (products : List (Int × Product)) : ℚ × ℚ :=
  order_items.foldl
    (fun acc item =>
      match getEntry item.product_id products with
      | some product =>
          (acc.1 + (item.quantity : ℚ) * item.unit_price,
           acc.2 + product.weight * (item.quantity : ℚ))
      | none => acc)
    (0, 0)

/-- `sum(item.quantity for item in order_items)` in
`PricingService.apply_all_discounts`. -/
def sumQuantities (order_items : List OrderItem) : Int :=
  order_items.foldl (fun acc item => acc + item.quantity) 0

/-- `PricingService.apply_all_discounts`: membership, then promotional
(eligibility against the original subtotal, amount against the running
one), then bulk, then loyalty; the returned `PricingResult` carries the
original subtotal, the points used, the final price and the weight. -/
def PricingService.apply_all_discounts (now : Int) (customer : Customer)
    (order_items : List OrderItem) (products : List (Int × Product))
    (promotion : Option Promotion) : PricingResult :=
  let st := PricingService.calculate_subtotal order_items products
  let subtotal := st.1
  let total_weight := st.2
  let membership_discount :=
    MembershipDiscountStrategy.calculate_discount customer.membership_tier subtotal
  let subtotal_after_membership := subtotal - membership_discount
  let promo_discount :=
    PromotionalDiscountStrategyImpl.calculate_discount now promotion subtotal
      subtotal_after_membership order_items products
  let subtotal_after_promo := subtotal_after_membership - promo_discount
  let total_items := sumQuantities order_items
  let bulk_discount :=
    BulkDiscountStrategyImpl.calculate_discount total_items subtotal_after_promo
  let subtotal_after_bulk := subtotal_after_promo - bulk_discount
  let loyalty_discount :=
    LoyaltyDiscountStrategyImpl.calculate_discount customer.loyalty_points subtotal_after_bulk
  let final_price := subtotal_after_bulk - loyalty_discount
  let points_used := LoyaltyDiscountStrategyImpl.calculate_points_used loyalty_discount
  ⟨subtotal, points_used, final_price, total_weight⟩

/-- `ShippingService.calculate_shipping_cost`: EXPRESS
`25 + weight*0.5` (half for GOLD), STANDARD `5 + weight*0.2` under a
subtotal of 50 and free otherwise, OVERNIGHT `50 + weight*1.0`. -/
def ShippingService.calculate_shipping_cost (shipping_method : ShippingMethod)
    (total_weight subtotal : ℚ) (customer_tier : MembershipTier) : ℚ :=
  match shipping_method with
  | .express =>
      let cost := 25 + total_weight * 0.5
      if customer_tier = .gold then cost * 0.5 else cost
  | .standard =>
      if subtotal < 50 then 5 + total_weight * 0.2 else 0
  | .overnight => 50 + total_weight * 1.0

/-- `OrderService.__calculate_tax`: flat rate by substring match on the
customer address (`"CA"` 7.25%, `"NY"` 4%, `"TX"` 6.25%, default 8%),
applied to the discounted subtotal. -/
def OrderService.calculate_tax (subtotal : ℚ) (customer_address : String) : ℚ :=
  let tax_rate : ℚ :=
    if strContains customer_address ("CA") then 0.0725
    else if strContains customer_address ("NY") then 0.04
    else if strContains customer_address ("TX") then 0.0625
    else 0.08
  subtotal * tax_rate

/-- `PaymentService.validate_payment`: falsy `valid` fails; CREDIT_CARD
needs a card number of at least 16 characters; PAYPAL needs a non-empty
email. -/
def PaymentService.validate_payment (payment_method : PaymentMethod)
    (payment_info : PaymentInfo) : Bool × Option String :=
  if payment_info.valid = false then
    (false, some ("Payment failed - invalid payment info"))
  else
    match payment_method with
    | .credit_card =>
        if payment_info.card_number.length < 16 then
          (false, some ("Invalid card number"))
        else (true, none)
    | .paypal =>
        if payment_info.email = "" then
          (false, some ("PayPal email required"))
        else (true, none)

/-- `PaymentService.process_payment`: validate, then require the
provided `amount` to cover the charge; only on success append a COMPLETED
transaction to the ledger. -/
def PaymentService.process_payment (history : List PaymentTransaction)
    (order_id : Int) (amount : ℚ) (payment_method : PaymentMethod)
    (payment_info : PaymentInfo) : (Bool × Option String) × List PaymentTransaction :=
  match PaymentService.validate_payment payment_method payment_info with
  | (false, err) => ((false, err), history)
  | (true, _) =>
      if payment_info.amount < amount then
        ((false, some ("Insufficient payment amount")), history)
      else
        ((true, none), history ++ [⟨order_id, amount, payment_method, .completed⟩])

/-- `InventoryService.check_product_availability`: true iff the product
exists and has at least the required stock. -/
def InventoryService.check_product_availability (s : SysState)
    (product_id required_quantity : Int) : Bool :=
  match getEntry product_id s.products with
  | none => false
  | some product => decide (required_quantity ≤ product.quantity_available)

/-- `InventoryService.log_inventory_change`: append an entry. -/
def InventoryService.log_inventory_change (s : SysState)
    (product_id quantity_change : Int) (reason : String) : SysState :=
  { s with inventory_logs := s.inventory_logs ++ [⟨product_id, quantity_change, reason⟩] }

/-- `ProductService.update_product_quantity`: fetch the current
repository product, build a fresh `Product` with the new quantity (the
`Product` constructor raises `ValueError` on a negative quantity) and
store it; `false` without mutation when the product is missing.  The
error case models the constructor raise. -/
def ProductService.update_product_quantity (products : List (Int × Product))
    (product_id new_quantity : Int) : Except String (Bool × List (Int × Product)) :=
  match getEntry product_id products with
  | none => .ok (false, products)
  | some product =>
      if new_quantity < 0 then
        .error ("ValueError: Product quantity cannot be negative")
      else
        .ok (true, setEntry product_id { product with quantity_available := new_quantity } products)

/-- `PromotionService.get_promotion`: resolve a code; a promotion past
`valid_until` resolves to `none`. -/
def PromotionService.get_promotion (s : SysState) (code : String) : Option Promotion :=
  match getEntry code s.promotions with
  | none => none
  | some promotion =>
      if promotion.valid_until < s.now then none else some promotion

/-- `PromotionService.increment_usage`: bump `used_count` when the code
resolves, otherwise leave the state alone. -/
def PromotionService.increment_usage (s : SysState) (code : String) : SysState :=
  match getEntry code s.promotions with
  | none => s
  | some promotion =>
      { s with promotions :=
          setEntry code { promotion with used_count := promotion.used_count + 1 } s.promotions }

/-- `CustomerService.add_order_to_history`: append the order id to the
stored customer's history (no-op when the customer is missing). -/
def CustomerService.add_order_to_history (s : SysState)
    (customer_id order_id : Int) : SysState :=
  match getEntry customer_id s.customers with
  | none => s
  | some customer =>
      let customer₂ := { customer with order_history := customer.order_history ++ [order_id] }
      { s with customers := setEntry customer_id customer₂ s.customers }

/-- `CustomerService.add_loyalty_points`: store the customer with
`loyalty_points + points` (no-op when the customer is missing). -/
def CustomerService.add_loyalty_points (s : SysState)
    (customer_id points : Int) : SysState :=
  match getEntry customer_id s.customers with
  | none => s
  | some customer =>
      let customer₂ := { customer with loyalty_points := customer.loyalty_points + points }
      { s with customers := setEntry customer_id customer₂ s.customers }

/-- Result of `OrderService.create_order`: the created order, `None`
(printed failure), or an uncaught Python exception. -/
inductive CreateOrderResult where
  | created (order : Order)
  | noOrder
  | raised (msg : String)
deriving DecidableEq

/-- Outcome of steps 1–6 of `create_order` (everything before
`process_payment`): either an early exit or the data needed by the
remaining steps. -/
inductive PreOutcome where
  | halt (r : CreateOrderResult)
  | go (customer : Customer) (items : List OrderItem) (pmap : List (Int × Product))
      (pricing : PricingResult) (shipping_cost tax total_price : ℚ) (order_id : Int)
deriving DecidableEq

/-- Step 2 of `create_order`: per line item, fail (`None`) when the
product is missing or the stock check fails, build the `OrderItem`
(whose constructor first rejects a negative unit price via `Money`, then
a non-positive quantity) and record the product in the local
`products` map. -/
def OrderService.buildItems (s : SysState) :
    List (Int × Int × ℚ) → List OrderItem → List (Int × Product) →
    Except CreateOrderResult (List OrderItem × List (Int × Product))
| [], items, pmap => .ok (items.reverse, pmap)
| (product_id, quantity, unit_price) :: rest, items, pmap =>
    match getEntry product_id s.products with
    | none => .error .noOrder
    | some product =>
        if InventoryService.check_product_availability s product_id quantity then
          if unit_price < 0 then
            .error (.raised ("ValueError: Amount cannot be negative"))
          else if quantity ≤ 0 then
            .error (.raised ("ValueError: Order quantity must be positive"))
          else
            OrderService.buildItems s rest
              (⟨product_id, quantity, unit_price, 0⟩ :: items)
              (setEntry product_id product pmap)
        else .error .noOrder

/-- Steps 1–6 of `create_order`: validate customer and stock, resolve
the promo code (incrementing its usage), run the pricing pipeline (the
`PricingResult` constructor raises on any negative component), compute
shipping, tax and the total, and reserve the next order id. -/
def OrderService.createOrderPre (s : SysState) (customer_id : Int)
    (order_items : List (Int × Int × ℚ)) (promo_code : Option String)
    (shipping_method : ShippingMethod) : PreOutcome × SysState :=
  match getEntry customer_id s.customers with
  | none => (.halt .noOrder, s)
  | some customer =>
    if customer.membership_tier = .suspended then (.halt .noOrder, s)
    else
      match OrderService.buildItems s order_items [] [] with
      | .error r => (.halt r, s)
      | .ok (items, pmap) =>
        let resolved : Option Promotion × SysState :=
          match promo_code with
          | none => (none, s)
          | some code =>
            match PromotionService.get_promotion s code with
            | none => (none, s)
            | some promotion => (some promotion, PromotionService.increment_usage s code)
        let promotion := resolved.1
        let s₁ := resolved.2
        let pricing := PricingService.apply_all_discounts s₁.now customer items pmap promotion
        if pricing.original_subtotal < 0 ∨ pricing.subtotal_after_loyalty < 0 ∨
            pricing.loyalty_points_used < 0 ∨ pricing.total_weight < 0 then
          (.halt (.raised ("ValueError: PricingResult validation failed")), s₁)
        else
          let shipping_cost := ShippingService.calculate_shipping_cost shipping_method
            pricing.total_weight pricing.subtotal_after_loyalty customer.membership_tier
          let tax := OrderService.calculate_tax pricing.subtotal_after_loyalty customer.address
          let total_price := pricing.subtotal_after_loyalty + shipping_cost + tax
          (.go customer items pmap pricing shipping_cost tax total_price s₁.next_order_id,
           { s₁ with next_order_id := s₁.next_order_id + 1 })

/-- Step 8 of `create_order`: per input line, read the product from the
LOCAL `products` map captured in step 2 (not from the repository),
subtract the line quantity from that snapshot value, store the result via
`ProductService.update_product_quantity`, then log a `"sale"`.  An error
is the `ValueError` raised by the fresh `Product` construction. -/
def OrderService.deductLoop (pmap : List (Int × Product)) :
    List (Int × Int × ℚ) → SysState → Except (String × SysState) SysState
| [], s => .ok s
| (product_id, quantity, _) :: rest, s =>
    match getEntry product_id pmap with
    | none => .error ("KeyError", s)
    | some product =>
        let new_quantity := product.quantity_available - quantity
        match ProductService.update_product_quantity s.products product_id new_quantity with
        | .error msg => .error (msg, s)
        | .ok (_, products₂) =>
            OrderService.deductLoop pmap rest
              (InventoryService.log_inventory_change
                ({ s with products := products₂ }) product_id (-quantity) ("sale"))

/-- Step 12 of `create_order`: per input line, read
`quantity_available` from the LOCAL `products` map captured in step 2 —
the pre-sale snapshot, since `update_product_quantity` replaced the
repository entry with a fresh object without touching the snapshot — and
call `notify_supplier_reorder` when it is below 5. -/
def OrderService.lowStockLoop (pmap : List (Int × Product)) :
    List (Int × Int × ℚ) → SysState → SysState
| [], s => s
| (product_id, _, _) :: rest, s =>
    let s₂ :=
      match getEntry product_id pmap with
      | none => s
      | some product =>
          if product.quantity_available < 5 then
            { s with supplier_reorders := s.supplier_reorders ++ [(product_id, product.supplier_id)] }
          else s
    OrderService.lowStockLoop pmap rest s₂

/-- `OrderService.create_order` (steps 1–12).  After a successful
payment, step 7.5 calls `CustomerService.update_loyalty_points` — a
method `services/customer_service.py` does not define — whenever
`loyalty_points_used > 0`, so that path raises `AttributeError` with the
payment already recorded.  Step 9 runs the `Order` constructor
validation (`Money` for total and shipping, then the non-empty item
check).  Step 10 appends the order to the customer history and awards
`int(original_subtotal)` points; step 11 logs the confirmation
notification; step 12 is the low-stock loop. -/
def OrderService.create_order (s : SysState) (customer_id : Int)
    (order_items : List (Int × Int × ℚ)) (payment_info : PaymentInfo)
    (promo_code : Option String) (shipping_method : ShippingMethod) :
    CreateOrderResult × SysState :=
  match OrderService.createOrderPre s customer_id order_items promo_code shipping_method with
  | (.halt r, s₁) => (r, s₁)
  | (.go _customer items pmap pricing shipping_cost _tax total_price order_id, s₁) =>
    match PaymentService.process_payment s₁.payment_history order_id total_price
        payment_info.ptype payment_info with
    | ((false, _), _) => (.noOrder, s₁)
    | ((true, _), history₂) =>
      let s₂ := { s₁ with payment_history := history₂ }
      if 0 < pricing.loyalty_points_used then
        (.raised ("AttributeError: CustomerService has no attribute update_loyalty_points"), s₂)
      else
        match OrderService.deductLoop pmap order_items s₂ with
        | .error (msg, s₃) => (.raised msg, s₃)
        | .ok s₃ =>
          if total_price < 0 then
            (.raised ("ValueError: Amount cannot be negative"), s₃)
          else if shipping_cost < 0 then
            (.raised ("ValueError: Amount cannot be negative"), s₃)
          else if items.isEmpty then
            (.raised ("ValueError: Order must have at least one item"), s₃)
          else
            let order : Order :=
              ⟨order_id, customer_id, items, .pending, total_price, shipping_cost, none, none⟩
            let s₄ := { s₃ with orders := setEntry order_id order s₃.orders }
            let s₅ := CustomerService.add_order_to_history s₄ customer_id order_id
            let s₆ := CustomerService.add_loyalty_points s₅ customer_id
              (pyInt pricing.original_subtotal)
            let s₇ := { s₆ with notification_log :=
              s₆.notification_log ++ [⟨customer_id, order_id, "order_confirmation"⟩] }
            (.created order, OrderService.lowStockLoop pmap order_items s₇)

/-- Result of `OrderService.cancel_order`: the returned boolean or an
uncaught Python exception. -/
inductive CancelResult where
  | returned (b : Bool)
  | raised (msg : String)
deriving DecidableEq

/-- The restore loop of `cancel_order`: per order item, read the product
from the `get_all_products()` snapshot taken before the loop (a shallow
copy — replacing a repository entry does not change the snapshot), skip
the item if missing, otherwise store snapshot quantity plus item
quantity and log `"order_cancelled_{id}"`. -/
def OrderService.restoreLoop (snapshot : List (Int × Product)) (order_id : Int) :
    List OrderItem → SysState → Except (String × SysState) SysState
| [], s => .ok s
| item :: rest, s =>
    match getEntry item.product_id snapshot with
    | none => OrderService.restoreLoop snapshot order_id rest s
    | some product =>
        let new_quantity := product.quantity_available + item.quantity
        match ProductService.update_product_quantity s.products item.product_id new_quantity with
        | .error msg => .error (msg, s)
        | .ok (_, products₂) =>
            OrderService.restoreLoop snapshot order_id rest
              (InventoryService.log_inventory_change
                ({ s with products := products₂ }) item.product_id item.quantity
                ("order_cancelled_" ++ toString order_id))

/-- `OrderService.cancel_order`: `false` when the order is missing or
not PENDING; otherwise restore inventory, set the status to CANCELLED
and persist it, then look up the customer and call
`NotificationService.send_order_cancellation` — a method
`services/notification_service.py` does not define — so a found customer
raises `AttributeError` after the restore and status change persisted. -/
def OrderService.cancel_order (s : SysState) (order_id : Int) (_reason : String) :
    CancelResult × SysState :=
  match getEntry order_id s.orders with
  | none => (.returned false, s)
  | some order =>
    if order.status ≠ .pending then (.returned false, s)
    else
      match OrderService.restoreLoop s.products order_id order.items s with
      | .error (msg, s₂) => (.raised msg, s₂)
      | .ok s₂ =>
          let order₂ := { order with status := OrderStatus.cancelled }
          let s₃ := { s₂ with orders := setEntry order_id order₂ s₂.orders }
          match getEntry order.customer_id s₃.customers with
          | some _ =>
              (.raised ("AttributeError: NotificationService has no attribute send_order_cancellation"), s₃)
          | none => (.returned true, s₃)

/-! Concrete customers, products, promotions and system states used to
instantiate the claim theorems. -/

/-- GOLD customer with no loyalty points (pricing-composition scenario). -/
def c5_customer : Customer := ⟨1, "Alice", "alice@mail.com", .gold, "5550101", "12 Harbor Way", 0, []⟩

/-- A 100-dollar, 1-kg electronics product with stock 10. -/
def c5_product : Product := ⟨1, "Widget", 100, 10, "Electronics", 1, 1⟩

/-- A 10%-off category-`"all"` promotion with no minimum purchase,
valid until timestamp 1000. -/
def c5_promo : Promotion := ⟨9, "TEN", 10, 0, 1000, "all", 0⟩

/-- A 0%-off category-`"all"` promotion with no minimum purchase —
applicable, yet its computed discount is 0. -/
def c6_promo : Promotion := ⟨9, "ZERO", 0, 0, 1000, "all", 0⟩

/-- STANDARD-tier customer holding 200 loyalty points. -/
def c1_customer : Customer := ⟨1, "Ann", "a@x.y", .standard, "5550000", "9 Elm Way", 200, []⟩

/-- A 100-dollar product with stock 10. -/
def c1_product : Product := ⟨1, "Widget", 100, 10, "misc", 1, 1⟩

/-- State holding only `c1_customer` and `c1_product`. -/
def c1_state : SysState := ⟨0, [(1, c1_customer)], [(1, c1_product)], [], 1, [], [], [], [], []⟩

/-- Valid credit-card payment info offering 200. -/
def c1_payment : PaymentInfo := ⟨.credit_card, true, "1234567890123456", "", 200⟩

/-- STANDARD-tier customer with no loyalty points. -/
def c4_customer : Customer := ⟨1, "Bea", "b@x.y", .standard, "5550001", "9 Elm Way", 0, []⟩

/-- A 10-dollar product with stock 6 (pre-sale), so a 2-unit sale leaves 4. -/
def c4_product : Product := ⟨1, "Widget", 10, 6, "misc", 2, 7⟩

/-- State holding only `c4_customer` and `c4_product`. -/
def c4_state : SysState := ⟨0, [(1, c4_customer)], [(1, c4_product)], [], 1, [], [], [], [], []⟩

/-- Valid credit-card payment info offering 100. -/
def c4_payment : PaymentInfo := ⟨.credit_card, true, "1234567890123456", "", 100⟩

/-- The order `create_order` builds in the `c4_state` scenario:
subtotal 20, shipping 5.8 (STANDARD under 50 with weight 4), tax 1.6
(8% default), total 27.4. -/
def c4_order : Order := ⟨1, 1, [⟨1, 2, 10, 0⟩], .pending, 27.4, 5.8, none, none⟩

/-- Customer owning the PENDING order of the cancellation scenario. -/
def c8_customer : Customer := ⟨7, "Cal", "c@x.y", .standard, "5550002", "1 Oak St", 0, [1]⟩

/-- A PENDING order with one line of 2 units of product 1. -/
def c8_order : Order := ⟨1, 7, [⟨1, 2, 10, 0⟩], .pending, 27.4, 5.8, none, none⟩

/-- Product 1 with stock 5 at cancellation time. -/
def c8_product : Product := ⟨1, "Widget", 10, 5, "misc", 2, 7⟩

/-- State holding the PENDING order, its product and its customer. -/
def c8_state : SysState := ⟨0, [(7, c8_customer)], [(1, c8_product)], [(1, c8_order)], 2, [], [], [], [], []⟩

/-- The same state with the order already SHIPPED. -/
def c8_state_shipped : SysState :=
  ⟨0, [(7, c8_customer)], [(1, c8_product)],
   [(1, ⟨1, 7, [⟨1, 2, 10, 0⟩], .shipped, 27.4, 5.8, none, none⟩)], 2, [], [], [], [], []⟩

/-- STANDARD-tier customer for the payment-failure scenario. -/
def c3_customer : Customer := ⟨1, "Dee", "d@x.y", .standard, "5550003", "9 Elm Way", 0, []⟩

/-- A 10-dollar product with stock 5. -/
def c3_product : Product := ⟨2, "Gizmo", 10, 5, "misc", 1, 3⟩

/-- State holding only `c3_customer` and `c3_product`. -/
def c3_state : SysState := ⟨0, [(1, c3_customer)], [(2, c3_product)], [], 1, [], [], [], [], []⟩

/-- Credit-card payment info whose `valid` flag is false. -/
def c3_payment : PaymentInfo := ⟨.credit_card, false, "1234567890123456", "", 100⟩

/-- STANDARD-tier customer with no loyalty points (duplicate-line scenario). -/
def c10_customer : Customer := ⟨1, "Bob", "b@x.y", .standard, "5550000", "X Street", 0, []⟩

/-- Valid credit-card payment info offering exactly the 50-dollar total. -/
def c10_payment : PaymentInfo := ⟨.credit_card, true, "1234567890123456", "", 50⟩

/-- A free, weightless product with stock `q`, so that the total of any
order of it is the 50-dollar OVERNIGHT shipping alone. -/
def c10_product (q : Int) : Product := ⟨5, "Widget", 0, q, "misc", 0, 9⟩

/-- State holding `c10_customer` and `c10_product q`. -/
def c10_state (q : Int) : SysState :=
  ⟨0, [(1, c10_customer)], [(5, c10_product q)], [], 1, [], [], [], [], []⟩

/-- The order `create_order` builds from two lines of product 5 with
quantities `q1` and `q2` at unit price 0 in the `c10_state` scenario. -/
def c10_order (q1 q2 : Int) : Order :=
  ⟨1, 1, [⟨5, q1, 0, 0⟩, ⟨5, q2, 0, 0⟩], .pending, 50, 50, none, none⟩

/-- The claim-side reading of the sentence on the promotional discount,
amended only where the counterexample forces it: 0 when the promotion is
absent, expired, below the minimum purchase on the original subtotal, or
category-inapplicable; in every other case
`current_subtotal * (discount_percent / 100)` — which can itself be 0,
for instance when `discount_percent = 0`. -/
def promoDiscountSpec (now : Int) (promotion : Option Promotion)
    (original_subtotal current_subtotal : ℚ)
    (order_items : List OrderItem) (products : List (Int × Product)) : ℚ :=
  match promotion with
  | none => 0
  | some promo =>
    if promo.valid_until < now then 0
    else if original_subtotal < promo.min_purchase then 0
    else if promoApplicable promo order_items products then
      current_subtotal * (promo.discount_percent / 100)
    else 0

/-! Claim theorems. -/

/-- Claim C5: the pricing pipeline composes membership, promotional,
bulk and loyalty discounts in that order, each of the first three on the
already-discounted running subtotal — for a GOLD customer with fewer
than 100 loyalty points, one line item of subtotal 100, and a 10%
category-`"all"` promotion, the final subtotal is `100 * 0.85 = 85`
then `85 * 0.90 = 76.5`, not `100 - 15 - 10 = 75`. -/
theorem claim5_pricing_composition_order :
    (PricingService.apply_all_discounts 0 c5_customer [⟨1, 1, 100, 0⟩]
        [(1, c5_product)] (some c5_promo)).subtotal_after_loyalty = 76.5
    ∧ (PricingService.apply_all_discounts 0 c5_customer [⟨1, 1, 100, 0⟩]
        [(1, c5_product)] (some c5_promo)).original_subtotal = 100
    ∧ (76.5 : ℚ) = 100 * 0.85 * 0.90 := by
  norm_num [PricingService.apply_all_discounts, PricingService.calculate_subtotal,
    MembershipDiscountStrategy.calculate_discount,
    PromotionalDiscountStrategyImpl.calculate_discount,
    BulkDiscountStrategyImpl.calculate_discount,
    LoyaltyDiscountStrategyImpl.calculate_discount,
    LoyaltyDiscountStrategyImpl.calculate_points_used, promoApplicable, sumQuantities,
    getEntry, pyInt, c5_customer, c5_product, c5_promo]

/-- Claim C6, counterexample: a present, unexpired, minimum-satisfying,
category-applicable promotion with `discount_percent = 0` makes
`calculate_discount` return 0 although none of the four zero conditions
of the claim holds, refuting the claimed "exactly when". -/
theorem claim6_zero_discount_counterexample :
    PromotionalDiscountStrategyImpl.calculate_discount 0 (some c6_promo) 100 100
        [⟨1, 1, 100, 0⟩] [(1, c5_product)] = 0
    ∧ ¬(c6_promo.valid_until < 0)
    ∧ ¬((100 : ℚ) < c6_promo.min_purchase)
    ∧ promoApplicable c6_promo [⟨1, 1, 100, 0⟩] [(1, c5_product)] = true := by
  norm_num [PromotionalDiscountStrategyImpl.calculate_discount, promoApplicable,
    getEntry, c6_promo, c5_product]

/-- Claim C6, amended: the promotional discount is 0 if the promotion is
absent, expired, below `min_purchase` on the original subtotal, or
matches no line item; in every other case it is
`current_subtotal * (discount_percent / 100)`, which can itself be 0
(e.g. for a 0% promotion). -/
theorem claim6_promotional_discount_cases (now : Int) (promotion : Option Promotion)
    (original_subtotal current_subtotal : ℚ) (order_items : List OrderItem)
    (products : List (Int × Product)) :
    PromotionalDiscountStrategyImpl.calculate_discount now promotion
        original_subtotal current_subtotal order_items products
      = promoDiscountSpec now promotion original_subtotal current_subtotal
          order_items products := by
  cases promotion with
  | none => rfl
  | some promo =>
      simp only [PromotionalDiscountStrategyImpl.calculate_discount, promoDiscountSpec]
      split_ifs <;> ring

/-- Claim C7: the inline tax is the subtotal times a flat rate selected
by substring match on the address — `"CA"` gives 7.25% (unconditionally,
since it is checked first), an address with only the `"NY"` marker gives
4%, only `"TX"` gives 6.25%, and no marker gives the 8% default. -/
theorem claim7_tax_by_address_substring (subtotal : ℚ) (addr : String) :
    (strContains addr ("CA") = true →
      OrderService.calculate_tax subtotal addr = subtotal * 0.0725)
    ∧ (strContains addr ("NY") = true → strContains addr ("CA") = false →
        strContains addr ("TX") = false →
        OrderService.calculate_tax subtotal addr = subtotal * 0.04)
    ∧ (strContains addr ("TX") = true → strContains addr ("CA") = false →
        strContains addr ("NY") = false →
        OrderService.calculate_tax subtotal addr = subtotal * 0.0625)
    ∧ (strContains addr ("CA") = false → strContains addr ("NY") = false →
        strContains addr ("TX") = false →
        OrderService.calculate_tax subtotal addr = subtotal * 0.08) := by
  refine ⟨?_, ?_, ?_, ?_⟩
  · intro h1
    simp [OrderService.calculate_tax, h1]
  · intro h1 h2 h3
    simp [OrderService.calculate_tax, h1, h2, h3]
  · intro h1 h2 h3
    simp [OrderService.calculate_tax, h1, h2, h3]
  · intro h1 h2 h3
    simp [OrderService.calculate_tax, h1, h2, h3]

/-- Claim C7, witness: a CA address at subtotal 100 is taxed 7.25. -/
theorem claim7_tax_witness :
    strContains ("1 Oak St, CA") ("CA") = true
    ∧ OrderService.calculate_tax 100 ("1 Oak St, CA") = 100 * 0.0725 := by
  refine ⟨by decide, (claim7_tax_by_address_substring 100 ("1 Oak St, CA")).1 (by decide)⟩

/-- Claim C9: for any subtotal `S ≥ 0` the membership discount never
exceeds `S` for any tier, is non-decreasing along
STANDARD < BRONZE < SILVER < GOLD, and is 0 for SUSPENDED. -/
theorem claim9_membership_discount_monotone (S : ℚ) (hS : 0 ≤ S) :
    (∀ tier, MembershipDiscountStrategy.calculate_discount tier S ≤ S)
    ∧ MembershipDiscountStrategy.calculate_discount .standard S ≤
        MembershipDiscountStrategy.calculate_discount .bronze S
    ∧ MembershipDiscountStrategy.calculate_discount .bronze S ≤
        MembershipDiscountStrategy.calculate_discount .silver S
    ∧ MembershipDiscountStrategy.calculate_discount .silver S ≤
        MembershipDiscountStrategy.calculate_discount .gold S
    ∧ MembershipDiscountStrategy.calculate_discount .suspended S = 0 := by
  refine ⟨fun tier => ?_, ?_, ?_, ?_, ?_⟩
  · cases tier <;> simp [MembershipDiscountStrategy.calculate_discount] <;> nlinarith
  all_goals simp [MembershipDiscountStrategy.calculate_discount]
  all_goals nlinarith

/-- Claim C9, witness: the theorem instantiated at `S = 4`. -/
theorem claim9_membership_discount_witness :
    (0 : ℚ) ≤ 4
    ∧ ((∀ tier, MembershipDiscountStrategy.calculate_discount tier 4 ≤ 4)
      ∧ MembershipDiscountStrategy.calculate_discount .standard 4 ≤
          MembershipDiscountStrategy.calculate_discount .bronze 4
      ∧ MembershipDiscountStrategy.calculate_discount .bronze 4 ≤
          MembershipDiscountStrategy.calculate_discount .silver 4
      ∧ MembershipDiscountStrategy.calculate_discount .silver 4 ≤
          MembershipDiscountStrategy.calculate_discount .gold 4
      ∧ MembershipDiscountStrategy.calculate_discount .suspended 4 = 0) :=
  ⟨by norm_num, claim9_membership_discount_monotone 4 (by norm_num)⟩

/-- Claim C1: on a run where pricing consumes loyalty points
(customer with 200 points, subtotal 100, so 200 points are used) and the
payment succeeds, `create_order` does not decrement the balance and
return the order — `services/customer_service.py` defines no
`update_loyalty_points`, so step 7.5 raises `AttributeError`, the stored
balance stays 200, the payment is already on the ledger, and no order is
persisted. -/
theorem claim1_loyalty_path_raises_attribute_error :
    (OrderService.create_order c1_state 1 [(1, 1, 100)] c1_payment none .standard).1
      = .raised ("AttributeError: CustomerService has no attribute update_loyalty_points")
    ∧ (getEntry 1 (OrderService.create_order c1_state 1 [(1, 1, 100)] c1_payment
        none .standard).2.customers).map Customer.loyalty_points = some 200
    ∧ (OrderService.create_order c1_state 1 [(1, 1, 100)] c1_payment
        none .standard).2.payment_history.length = 1
    ∧ (OrderService.create_order c1_state 1 [(1, 1, 100)] c1_payment
        none .standard).2.orders = []
    ∧ (PricingService.apply_all_discounts 0 c1_customer [⟨1, 1, 100, 0⟩]
        [(1, c1_product)] none).loyalty_points_used = 200 := by
  have hca : strContains ("9 Elm Way") ("CA") = false := by decide
  have hny : strContains ("9 Elm Way") ("NY") = false := by decide
  have htx : strContains ("9 Elm Way") ("TX") = false := by decide
  have hcard : ¬(("1234567890123456" : String).length < 16) := by decide
  have hsusp : (MembershipTier.standard = MembershipTier.suspended) = False := by decide
  norm_num [OrderService.create_order, OrderService.createOrderPre, OrderService.buildItems,
    OrderService.deductLoop, OrderService.lowStockLoop,
    InventoryService.check_product_availability, InventoryService.log_inventory_change,
    ProductService.update_product_quantity, PromotionService.get_promotion,
    PromotionService.increment_usage, CustomerService.add_order_to_history,
    CustomerService.add_loyalty_points, PaymentService.process_payment,
    PaymentService.validate_payment, PricingService.apply_all_discounts,
    PricingService.calculate_subtotal, MembershipDiscountStrategy.calculate_discount,
    PromotionalDiscountStrategyImpl.calculate_discount, BulkDiscountStrategyImpl.calculate_discount,
    LoyaltyDiscountStrategyImpl.calculate_discount, LoyaltyDiscountStrategyImpl.calculate_points_used,
    promoApplicable, sumQuantities, ShippingService.calculate_shipping_cost,
    OrderService.calculate_tax, getEntry, setEntry, pyInt,
    c1_state, c1_customer, c1_product, c1_payment, hca, hny, htx, hcard, hsusp]

/-- Claim C2: an invocation that does not return a created order can
still leave a payment on the ledger — with a valid payment and an empty
item list, `process_payment` records the 5-dollar charge (shipping on a
0 subtotal) and then the `Order` constructor raises on the empty item
list, so the run ends with no order yet one ledger entry. -/
theorem claim2_failed_order_still_charges :
    (OrderService.create_order c1_state 1 [] c1_payment none .standard).1
      = .raised ("ValueError: Order must have at least one item")
    ∧ (OrderService.create_order c1_state 1 [] c1_payment none .standard).2.payment_history
      = [⟨1, 5, .credit_card, .completed⟩]
    ∧ (OrderService.create_order c1_state 1 [] c1_payment none .standard).2.orders = []
    ∧ (OrderService.create_order c1_state 1 [] c1_payment none .standard).2.products
      = c1_state.products
    ∧ (OrderService.create_order c1_state 1 [] c1_payment none .standard).2.inventory_logs
      = [] := by
  have hca : strContains ("9 Elm Way") ("CA") = false := by decide
  have hny : strContains ("9 Elm Way") ("NY") = false := by decide
  have htx : strContains ("9 Elm Way") ("TX") = false := by decide
  have hcard : ¬(("1234567890123456" : String).length < 16) := by decide
  have hsusp : (MembershipTier.standard = MembershipTier.suspended) = False := by decide
  norm_num [OrderService.create_order, OrderService.createOrderPre, OrderService.buildItems,
    OrderService.deductLoop, OrderService.lowStockLoop,
    InventoryService.check_product_availability, InventoryService.log_inventory_change,
    ProductService.update_product_quantity, PromotionService.get_promotion,
    PromotionService.increment_usage, CustomerService.add_order_to_history,
    CustomerService.add_loyalty_points, PaymentService.process_payment,
    PaymentService.validate_payment, PricingService.apply_all_discounts,
    PricingService.calculate_subtotal, MembershipDiscountStrategy.calculate_discount,
    PromotionalDiscountStrategyImpl.calculate_discount, BulkDiscountStrategyImpl.calculate_discount,
    LoyaltyDiscountStrategyImpl.calculate_discount, LoyaltyDiscountStrategyImpl.calculate_points_used,
    promoApplicable, sumQuantities, ShippingService.calculate_shipping_cost,
    OrderService.calculate_tax, getEntry, setEntry, pyInt,
    c1_state, c1_customer, c1_product, c1_payment, hca, hny, htx, hcard, hsusp]

/-- Claim C4: step 12 reads `quantity_available` from the local pre-sale
snapshot, not the post-sale repository value — selling 2 of a stock-6
product leaves 4 (< 5) in the repository, yet no supplier reorder is
issued because the snapshot still reads 6. -/
theorem claim4_low_stock_uses_pre_sale_snapshot :
    (OrderService.create_order c4_state 1 [(1, 2, 10)] c4_payment none .standard).1
      = .created c4_order
    ∧ (getEntry 1 (OrderService.create_order c4_state 1 [(1, 2, 10)] c4_payment
        none .standard).2.products).map Product.quantity_available = some 4
    ∧ (OrderService.create_order c4_state 1 [(1, 2, 10)] c4_payment
        none .standard).2.supplier_reorders = [] := by
  have hca : strContains ("9 Elm Way") ("CA") = false := by decide
  have hny : strContains ("9 Elm Way") ("NY") = false := by decide
  have htx : strContains ("9 Elm Way") ("TX") = false := by decide
  have hcard : ¬(("1234567890123456" : String).length < 16) := by decide
  have hsusp : (MembershipTier.standard = MembershipTier.suspended) = False := by decide
  norm_num [OrderService.create_order, OrderService.createOrderPre, OrderService.buildItems,
    OrderService.deductLoop, OrderService.lowStockLoop,
    InventoryService.check_product_availability, InventoryService.log_inventory_change,
    ProductService.update_product_quantity, PromotionService.get_promotion,
    PromotionService.increment_usage, CustomerService.add_order_to_history,
    CustomerService.add_loyalty_points, PaymentService.process_payment,
    PaymentService.validate_payment, PricingService.apply_all_discounts,
    PricingService.calculate_subtotal, MembershipDiscountStrategy.calculate_discount,
    PromotionalDiscountStrategyImpl.calculate_discount, BulkDiscountStrategyImpl.calculate_discount,
    LoyaltyDiscountStrategyImpl.calculate_discount, LoyaltyDiscountStrategyImpl.calculate_points_used,
    promoApplicable, sumQuantities, ShippingService.calculate_shipping_cost,
    OrderService.calculate_tax, getEntry, setEntry, pyInt,
    c4_state, c4_customer, c4_product, c4_payment, c4_order, hca, hny, htx, hcard, hsusp]

/-- Claim C8: cancelling a PENDING order whose customer exists does not
return true — the restore and the CANCELLED status are persisted, the
`"order_cancelled_1"` log entry is written, but the final notification
step raises `AttributeError` because
`services/notification_service.py` defines no `send_order_cancellation`;
cancelling a SHIPPED order does return false with the state untouched. -/
theorem claim8_cancel_order_raises_after_mutation :
    (OrderService.cancel_order c8_state 1 ("requested")).1
      = .raised ("AttributeError: NotificationService has no attribute send_order_cancellation")
    ∧ (getEntry 1 (OrderService.cancel_order c8_state 1 ("requested")).2.products).map
        Product.quantity_available = some 7
    ∧ (getEntry 1 (OrderService.cancel_order c8_state 1 ("requested")).2.orders).map
        Order.status = some .cancelled
    ∧ (OrderService.cancel_order c8_state 1 ("requested")).2.inventory_logs
      = [⟨1, 2, "order_cancelled_1"⟩]
    ∧ OrderService.cancel_order c8_state_shipped 1 ("requested")
      = (.returned false, c8_state_shipped) := by
  have hpend : (OrderStatus.pending ≠ OrderStatus.pending) = False := by decide
  have hship : (OrderStatus.shipped ≠ OrderStatus.pending) = True := by decide
  have happ : "order_cancelled_" ++ toString (1 : Int) = "order_cancelled_1" := by decide
  norm_num [OrderService.cancel_order, OrderService.restoreLoop,
    InventoryService.log_inventory_change, ProductService.update_product_quantity,
    getEntry, setEntry, c8_state, c8_state_shipped, c8_customer, c8_order, c8_product,
    hpend, hship, happ]

/-- Steps 1–6 of `create_order` touch no product, no inventory log, no
order and no payment ledger: the only state changes before
`process_payment` are the promotion usage count and the order-id
counter. -/
theorem createOrderPre_preserves_stores (s : SysState) (customer_id : Int)
    (order_items : List (Int × Int × ℚ)) (promo_code : Option String)
    (shipping_method : ShippingMethod) :
    (OrderService.createOrderPre s customer_id order_items promo_code shipping_method).2.products
        = s.products
    ∧ (OrderService.createOrderPre s customer_id order_items promo_code shipping_method).2.inventory_logs
        = s.inventory_logs
    ∧ (OrderService.createOrderPre s customer_id order_items promo_code shipping_method).2.orders
        = s.orders
    ∧ (OrderService.createOrderPre s customer_id order_items promo_code shipping_method).2.payment_history
        = s.payment_history := by
  unfold OrderService.createOrderPre PromotionService.increment_usage
  repeat' split
  all_goals try simp
  all_goals try (split_ifs <;> simp)

/-- Claim C3: whenever a `create_order` run reaches the payment step and
`process_payment` returns failure, the call returns `None` and leaves
every product quantity, the inventory log and the order store exactly as
they were before the call. -/
theorem claim3_payment_failure_no_side_effects
    (s : SysState) (customer_id : Int) (order_items : List (Int × Int × ℚ))
    (payment_info : PaymentInfo) (promo_code : Option String) (shipping_method : ShippingMethod)
    (customer : Customer) (items : List OrderItem) (pmap : List (Int × Product))
    (pricing : PricingResult) (shipping_cost tax total_price : ℚ) (order_id : Int) (s₁ : SysState)
    (hpre : OrderService.createOrderPre s customer_id order_items promo_code shipping_method
      = (.go customer items pmap pricing shipping_cost tax total_price order_id, s₁))
    (hfail : (PaymentService.process_payment s₁.payment_history order_id total_price
      payment_info.ptype payment_info).1.1 = false) :
    (OrderService.create_order s customer_id order_items payment_info promo_code shipping_method).1
      = .noOrder
    ∧ (OrderService.create_order s customer_id order_items payment_info promo_code
        shipping_method).2.products = s.products
    ∧ (OrderService.create_order s customer_id order_items payment_info promo_code
        shipping_method).2.inventory_logs = s.inventory_logs
    ∧ (OrderService.create_order s customer_id order_items payment_info promo_code
        shipping_method).2.orders = s.orders := by
  have hpres := createOrderPre_preserves_stores s customer_id order_items promo_code shipping_method
  rw [hpre] at hpres
  simp only at hpres
  unfold OrderService.create_order
  rw [hpre]
  rcases hp : PaymentService.process_payment s₁.payment_history order_id total_price
      payment_info.ptype payment_info with ⟨⟨b, err⟩, hist⟩
  rw [hp] at hfail
  simp only at hfail
  subst hfail
  simp only [hp]
  simp [hpres.1, hpres.2.1, hpres.2.2.1, hpres.2.2.2]

/-- Claim C3, witness: the theorem applied to the `c3_state` scenario,
whose payment info is marked invalid — the run reaches payment with a
total of 16 and fails, leaving products, logs and orders untouched. -/
theorem claim3_payment_failure_witness :
    OrderService.createOrderPre c3_state 1 [(2, 1, 10)] none .standard
      = (.go c3_customer [⟨2, 1, 10, 0⟩] [(2, c3_product)] ⟨10, 0, 10, 1⟩ (5.2) (0.8) 16 1,
         { c3_state with next_order_id := 2 })
    ∧ (PaymentService.process_payment ({ c3_state with next_order_id := 2 }).payment_history 1 16
        c3_payment.ptype c3_payment).1.1 = false
    ∧ ((OrderService.create_order c3_state 1 [(2, 1, 10)] c3_payment none .standard).1 = .noOrder
      ∧ (OrderService.create_order c3_state 1 [(2, 1, 10)] c3_payment none
          .standard).2.products = c3_state.products
      ∧ (OrderService.create_order c3_state 1 [(2, 1, 10)] c3_payment none
          .standard).2.inventory_logs = c3_state.inventory_logs
      ∧ (OrderService.create_order c3_state 1 [(2, 1, 10)] c3_payment none
          .standard).2.orders = c3_state.orders) := by
  have hpre : OrderService.createOrderPre c3_state 1 [(2, 1, 10)] none .standard
      = (.go c3_customer [⟨2, 1, 10, 0⟩] [(2, c3_product)] ⟨10, 0, 10, 1⟩ (5.2) (0.8) 16 1,
         { c3_state with next_order_id := 2 }) := by
    have hca : strContains ("9 Elm Way") ("CA") = false := by decide
    have hny : strContains ("9 Elm Way") ("NY") = false := by decide
    have htx : strContains ("9 Elm Way") ("TX") = false := by decide
    have hsusp : (MembershipTier.standard = MembershipTier.suspended) = False := by decide
    norm_num [OrderService.createOrderPre, OrderService.buildItems,
      InventoryService.check_product_availability,
      PricingService.apply_all_discounts, PricingService.calculate_subtotal,
      MembershipDiscountStrategy.calculate_discount,
      PromotionalDiscountStrategyImpl.calculate_discount, BulkDiscountStrategyImpl.calculate_discount,
      LoyaltyDiscountStrategyImpl.calculate_discount, LoyaltyDiscountStrategyImpl.calculate_points_used,
      promoApplicable, sumQuantities, ShippingService.calculate_shipping_cost,
      OrderService.calculate_tax, getEntry, setEntry, pyInt,
      c3_state, c3_customer, c3_product, hca, hny, htx, hsusp]
  have hfail : (PaymentService.process_payment ({ c3_state with next_order_id := 2 }).payment_history
      1 16 c3_payment.ptype c3_payment).1.1 = false := by decide
  exact ⟨hpre, hfail,
    claim3_payment_failure_no_side_effects c3_state 1 [(2, 1, 10)] c3_payment none .standard
      c3_customer [⟨2, 1, 10, 0⟩] [(2, c3_product)] ⟨10, 0, 10, 1⟩ (5.2) (0.8) 16 1
      ({ c3_state with next_order_id := 2 }) hpre hfail⟩

/-- Step 12 only appends supplier reorders; it never changes the
product store. -/
theorem lowStockLoop_products (pmap : List (Int × Product)) (l : List (Int × Int × ℚ))
    (s : SysState) :
    (OrderService.lowStockLoop pmap l s).products = s.products := by
  induction l generalizing s with
  | nil => rfl
  | cons hd tl ih =>
      obtain ⟨pid, q, p⟩ := hd
      unfold OrderService.lowStockLoop
      rw [ih]
      cases hm : getEntry pid pmap with
      | none => simp
      | some product =>
          simp only
          split_ifs <;> simp

/-- Claim C10: two lines of the same product (quantities `q1` and `q2`,
stock `Q`) each pass the stock check against the same starting quantity
(only `q1 ≤ Q` and `q2 ≤ Q` are required, not `q1 + q2 ≤ Q`), the order
is created, and each deduction is computed from the same pre-sale
snapshot, so the stored quantity ends at `Q - q2` — the last line's
single deduction — never `Q - (q1 + q2)`. -/
theorem claim10_duplicate_lines_deduct_last_only (Q q1 q2 : Int)
    (h1 : 0 < q1) (h2 : 0 < q2) (hq1 : q1 ≤ Q) (hq2 : q2 ≤ Q) :
    (OrderService.create_order (c10_state Q) 1 [(5, q1, 0), (5, q2, 0)] c10_payment
        none .overnight).1 = .created (c10_order q1 q2)
    ∧ (getEntry 5 (OrderService.create_order (c10_state Q) 1 [(5, q1, 0), (5, q2, 0)] c10_payment
        none .overnight).2.products).map Product.quantity_available = some (Q - q2)
    ∧ Q - q2 ≠ Q - (q1 + q2) := by
  have hca : strContains ("X Street") ("CA") = false := by decide
  have hny : strContains ("X Street") ("NY") = false := by decide
  have htx : strContains ("X Street") ("TX") = false := by decide
  have hcard : ¬(("1234567890123456" : String).length < 16) := by decide
  have hsusp : (MembershipTier.standard = MembershipTier.suspended) = False := by decide
  have hnl1 : ¬(q1 ≤ 0) := by omega
  have hnl2 : ¬(q2 ≤ 0) := by omega
  have hd1 : ¬(Q - q1 < 0) := by omega
  have hd2 : ¬(Q - q2 < 0) := by omega
  refine ⟨?_, ?_, by omega⟩ <;>
  norm_num [OrderService.create_order, OrderService.createOrderPre, OrderService.buildItems,
    OrderService.deductLoop, lowStockLoop_products,
    InventoryService.check_product_availability, InventoryService.log_inventory_change,
    ProductService.update_product_quantity, CustomerService.add_order_to_history,
    CustomerService.add_loyalty_points, PaymentService.process_payment,
    PaymentService.validate_payment, PricingService.apply_all_discounts,
    PricingService.calculate_subtotal, MembershipDiscountStrategy.calculate_discount,
    PromotionalDiscountStrategyImpl.calculate_discount, BulkDiscountStrategyImpl.calculate_discount,
    LoyaltyDiscountStrategyImpl.calculate_discount, LoyaltyDiscountStrategyImpl.calculate_points_used,
    promoApplicable, sumQuantities, ShippingService.calculate_shipping_cost,
    OrderService.calculate_tax, getEntry, setEntry, pyInt,
    c10_state, c10_customer, c10_product, c10_payment, c10_order,
    hca, hny, htx, hcard, hsusp, hq1, hq2, hnl1, hnl2, hd1, hd2]

/-- Claim C10, witness: the theorem at `Q = 3`, `q1 = q2 = 3` — the
order for 6 units of a 3-unit stock succeeds and the stored quantity
ends at `3 - 3 = 0`. -/
theorem claim10_duplicate_lines_witness :
    ((0 : Int) < 3 ∧ (3 : Int) ≤ 3)
    ∧ ((OrderService.create_order (c10_state 3) 1 [(5, 3, 0), (5, 3, 0)] c10_payment
          none .overnight).1 = .created (c10_order 3 3)
      ∧ (getEntry 5 (OrderService.create_order (c10_state 3) 1 [(5, 3, 0), (5, 3, 0)] c10_payment
          none .overnight).2.products).map Product.quantity_available = some (3 - 3)
      ∧ (3 : Int) - 3 ≠ 3 - (3 + 3)) :=
  ⟨⟨by norm_num, by norm_num⟩,
   claim10_duplicate_lines_deduct_last_only 3 3 3 (by norm_num) (by norm_num)
     (by norm_num) (by norm_num)⟩

end ECom
